import Mathlib

/-!
Shallow embedding of the SafeHer emergency-alert backend
(emergency controller, EmergencyContact / EmergencyAlert / User models,
SMS service), with theorems about the alert lifecycle, the contact
store and the notification dispatch.

Modelling conventions:
- MongoDB documents become Lean structures; object ids become `Nat`.
- JS numbers carried by requests (coordinates) are modelled as `Int`:
  only the zero / non-zero distinction and timestamp arithmetic are
  observable in this development.
- `Date.now()` is passed in explicitly as a `now : Nat` millisecond clock.
- A missing JSON field is `Option.none`; JS truthiness of a number is
  `jsTruthyNum` (0 and absent are falsy), of a string `jsTruthyStr`
  (empty and absent are falsy).
- Each Express handler becomes a function `Store → ... → Store × ApiResponse`;
  external channel sends (SMS / email / push) are oracles in `ChannelEnv`
  telling whether the awaited promise resolves or rejects.
-/

namespace SafeHer

/-- Notification channel (`notificationMethod` enum of the alert model). -/
inductive Channel
  | sms
  | email
  | push
  | call
deriving DecidableEq

/-- `deliveryStatus` enum of the alert model. -/
inductive DeliveryStatus
  | pending
  | sent
  | delivered
  | failed
deriving DecidableEq

/-- `status` enum of the alert model: `active`, `resolved`, `false-alarm`, `cancelled`. -/
inductive AlertStatus
  | active
  | resolved
  | falseAlarm
  | cancelled
deriving DecidableEq

/-- One entry of `notifiedContacts` (the controller pushes the attempted
methods into the `notificationMethod` array of a single per-contact record). -/
structure NotificationOutcome where
  contact : Nat
  notifiedAt : Nat
  notificationMethod : List Channel
  deliveryStatus : DeliveryStatus
deriving DecidableEq

/-- The `resolution` block of an alert. -/
structure Resolution where
  resolvedAt : Nat
  resolvedBy : Nat
  resolutionNotes : Option String
  outcome : Option String
deriving DecidableEq

/-- GeoJSON-style location stored on an alert. -/
structure AlertLocation where
  longitude : Int
  latitude : Int
  address : Option String
  accuracy : Option Int
deriving DecidableEq

/-- EmergencyAlert document (models/EmergencyAlert schema). -/
structure EmergencyAlert where
  id : Nat
  user : Nat
  alertType : String
  status : AlertStatus
  location : AlertLocation
  message : Option String
  notifiedContacts : List NotificationOutcome
  resolution : Option Resolution
  activatedAt : Nat
  deactivatedAt : Option Nat
  duration : Option Int
deriving DecidableEq

/-- EmergencyContact document (models/EmergencyContact schema);
`prefSms`/`prefEmail`/`prefPush` are the `notificationPreferences`
sub-document, with schema defaults sms=true, email=true, push=false. -/
structure EmergencyContact where
  id : Nat
  user : Nat
  name : String
  phone : String
  email : Option String
  relation : String
  isPrimary : Bool
  isActive : Bool
  prefSms : Bool
  prefEmail : Bool
  prefPush : Bool
  alertCount : Nat
  lastAlertSent : Option Nat
  notes : Option String
  createdAt : Nat
deriving DecidableEq

/-- User document, restricted to the fields the emergency controller touches. -/
structure User where
  id : Nat
  name : String
  email : String
  phone : String
  longitude : Int
  latitude : Int
  address : Option String
  locationUpdatedAt : Option Nat
  emergencyContacts : List Nat
deriving DecidableEq

/-- The persistent collections, plus fresh-id counters standing in for
MongoDB object-id generation. -/
structure Store where
  users : List User
  contacts : List EmergencyContact
  alerts : List EmergencyAlert
  nextAlertId : Nat
  nextContactId : Nat
deriving DecidableEq

/-- HTTP response as observed by the client: status code, the `success`
flag and the `message` field of the JSON body. -/
structure ApiResponse where
  status : Nat
  success : Bool
  message : String
deriving DecidableEq

/-- JS truthiness of a number-valued body field: absent and 0 are falsy. -/
def jsTruthyNum : Option Int → Bool
  | none => false
  | some n => n != 0

/-- JS truthiness of a string-valued field: absent and empty are falsy. -/
def jsTruthyStr : Option String → Bool
  | none => false
  | some s => !s.isEmpty

/-- Sort rank of the mongo sort key `{ isPrimary: -1 }`: primary contacts first. -/
def contactRank (c : EmergencyContact) : Nat :=
  if c.isPrimary then 0 else 1

/-- The composite sort order `{ isPrimary: -1, createdAt: 1 }` of
`EmergencyContact.getActiveContacts`: primary first, then earliest created. -/
def contactLe (c d : EmergencyContact) : Prop :=
  contactRank c < contactRank d ∨ (contactRank c = contactRank d ∧ c.createdAt ≤ d.createdAt)

instance : DecidableRel contactLe := fun c d => by
  unfold contactLe; exact inferInstance

instance : IsTotal EmergencyContact contactLe := by
  constructor
  intro a b
  rcases Nat.lt_trichotomy (contactRank a) (contactRank b) with h | h | h
  · exact Or.inl (Or.inl h)
  · rcases Nat.le_total a.createdAt b.createdAt with hc | hc
    · exact Or.inl (Or.inr ⟨h, hc⟩)
    · exact Or.inr (Or.inr ⟨h.symm, hc⟩)
  · exact Or.inr (Or.inl h)

instance : IsTrans EmergencyContact contactLe := by
  constructor
  intro a b c hab hbc
  rcases hab with h1 | ⟨h1, h1c⟩
  · rcases hbc with h2 | ⟨h2, _⟩
    · exact Or.inl (h1.trans h2)
    · exact Or.inl (h2 ▸ h1)
  · rcases hbc with h2 | ⟨h2, h2c⟩
    · exact Or.inl (h1 ▸ h2)
    · exact Or.inr ⟨h1.trans h2, h1c.trans h2c⟩

/-- `EmergencyContact.getActiveContacts(userId)`:
`find({ user: userId, isActive: true }).sort({ isPrimary: -1, createdAt: 1 })`. -/
def getActiveContacts (st : Store) (userId : Nat) : List EmergencyContact :=
  List.insertionSort contactLe
    (st.contacts.filter (fun c => c.user == userId && c.isActive))

/-- `User.findById`. -/
def findUser (st : Store) (userId : Nat) : Option User :=
  st.users.find? (fun u => u.id == userId)

/-- `EmergencyAlert.findOne({ _id: id, user: userId })`. -/
def findAlert (st : Store) (alertId userId : Nat) : Option EmergencyAlert :=
  st.alerts.find? (fun a => a.id == alertId && a.user == userId)

/-- `contact.save()`: write an updated contact document back over the
document with the same id. -/
def saveContact (contacts : List EmergencyContact) (c : EmergencyContact) :
    List EmergencyContact :=
  contacts.map (fun d => if d.id == c.id then c else d)

/-- The alert schema pre-save hook: when both timestamps are present,
`duration = Math.floor((deactivatedAt - activatedAt) / 1000)`. -/
def computeDuration (a : EmergencyAlert) : EmergencyAlert :=
  match a.deactivatedAt with
  | some d => { a with duration := some (Int.fdiv ((d : Int) - (a.activatedAt : Int)) 1000) }
  | none => a

/-- `alert.save()`: write an updated alert document (running the pre-save
duration hook) back over the document with the same id. -/
def saveAlert (alerts : List EmergencyAlert) (a : EmergencyAlert) :
    List EmergencyAlert :=
  alerts.map (fun b => if b.id == a.id then computeDuration a else b)

/-- Oracles for the external notification providers: for a given contact,
does the awaited `sendSMS` / `sendEmail` / `sendPushNotification` promise
resolve (`true`) or reject (`false`)? -/
structure ChannelEnv where
  smsOk : EmergencyContact → Bool
  emailOk : EmergencyContact → Bool
  pushOk : EmergencyContact → Bool

/-- Body of `contacts.map(async (contact) => ...)` in `activatePanicButton`
(controller lines 60-128): one `notificationData` record per contact,
starting `pending` with no methods; the SMS branch sets `sent`/`failed` and
on success runs `contact.incrementAlertCount()` (alertCount += 1,
lastAlertSent = now); the email branch runs only when the preference is set
and `contact.email` is truthy, and on success appends `email` to the
methods; the push branch likewise appends `push`; email/push rejections are
only logged. Returns the outcome record and the (possibly updated) contact. -/
def notifyContact (env : ChannelEnv) (now : Nat) (c : EmergencyContact) :
    NotificationOutcome × EmergencyContact :=
  let smsSent := c.prefSms && env.smsOk c
  let emailSent := (c.prefEmail && jsTruthyStr c.email) && env.emailOk c
  let pushSent := c.prefPush && env.pushOk c
  ({ contact := c.id
     notifiedAt := now
     notificationMethod :=
       (if smsSent then [Channel.sms] else []) ++
       (if emailSent then [Channel.email] else []) ++
       (if pushSent then [Channel.push] else [])
     deliveryStatus :=
       if smsSent then DeliveryStatus.sent
       else if c.prefSms then DeliveryStatus.failed
       else DeliveryStatus.pending },
   if smsSent then { c with alertCount := c.alertCount + 1, lastAlertSent := some now } else c)

/-- Request body of `POST /emergency/alert`. -/
structure PanicRequest where
  longitude : Option Int
  latitude : Option Int
  address : Option String
  accuracy : Option Int
  alertType : Option String
  message : Option String

def locationRequiredMsg : String := "Location is required for emergency alert"

def noContactsMsg : String := "No emergency contacts found. Please add emergency contacts first."

def activationErrorMsg : String := "Error activating emergency alert"

def activatedMsg : String := "Emergency alert activated!"

def defaultAlertType : String := "panic"

/-- `activatePanicButton` (controller lines 16-165). Rejects a falsy
longitude or latitude; refuses when the user has no active contacts;
otherwise creates the alert (status `active`), updates the user's
last-known location, runs the per-contact notification fan-out, saves each
updated contact and the outcome list onto the alert, and answers 201.
When `User.findById` finds nothing, `user.updateLocation` throws and the
catch block answers 500 — the already-created alert persists.
The socket emission and the interpolated contact count in the success
message are not modelled. -/
def activatePanicButton (env : ChannelEnv) (now : Nat) (st : Store)
    (userId : Nat) (req : PanicRequest) : Store × ApiResponse :=
  if !jsTruthyNum req.longitude || !jsTruthyNum req.latitude then
    (st, { status := 400, success := false, message := locationRequiredMsg })
  else
    let contacts := getActiveContacts st userId
    if contacts.length == 0 then
      (st, { status := 400, success := false, message := noContactsMsg })
    else
      let alert0 : EmergencyAlert :=
        { id := st.nextAlertId
          user := userId
          alertType := if jsTruthyStr req.alertType then req.alertType.getD defaultAlertType else defaultAlertType
          status := AlertStatus.active
          location :=
            { longitude := req.longitude.getD 0
              latitude := req.latitude.getD 0
              address := req.address
              accuracy := req.accuracy }
          message := req.message
          notifiedContacts := []
          resolution := none
          activatedAt := now
          deactivatedAt := none
          duration := none }
      let st1 : Store := { st with alerts := st.alerts ++ [alert0], nextAlertId := st.nextAlertId + 1 }
      match findUser st1 userId with
      | none =>
          (st1, { status := 500, success := false, message := activationErrorMsg })
      | some _ =>
          let st2 : Store :=
            { st1 with users := st1.users.map (fun u =>
                if u.id == userId then
                  { u with longitude := req.longitude.getD 0
                           latitude := req.latitude.getD 0
                           address := req.address
                           locationUpdatedAt := some now }
                else u) }
          let results := contacts.map (notifyContact env now)
          let st3 : Store := { st2 with contacts := (results.map Prod.snd).foldl saveContact st2.contacts }
          let st4 : Store := { st3 with alerts := st3.alerts.map (fun a =>
              if a.id == alert0.id then { a with notifiedContacts := results.map Prod.fst } else a) }
          (st4, { status := 201, success := true, message := activatedMsg })

/-- Request body of `PUT /emergency/alerts/:id/resolve`. -/
structure ResolveRequest where
  outcome : Option String
  notes : Option String

def alertNotFoundMsg : String := "Alert not found"

def alertNotActiveMsg : String := "Alert is not active"

def alertResolvedMsg : String := "Alert resolved successfully"

def falseAlarmMsg : String := "Alert marked as false alarm"

/-- `resolveAlert` (controller lines 170-226): 404 when the alert is not
found for the caller; 400 when its status is not `active`; otherwise the
model method `resolveAlert` sets status `resolved`, the resolution block
and `deactivatedAt`, and the pre-save hook recomputes the duration.
The best-effort resolution SMS notices to the notified contacts have no
effect on the store and are not modelled. -/
def resolveAlert (now : Nat) (st : Store) (userId alertId : Nat)
    (req : ResolveRequest) : Store × ApiResponse :=
  match findAlert st alertId userId with
  | none => (st, { status := 404, success := false, message := alertNotFoundMsg })
  | some alert =>
      if alert.status != AlertStatus.active then
        (st, { status := 400, success := false, message := alertNotActiveMsg })
      else
        let alert1 : EmergencyAlert :=
          { alert with
              status := AlertStatus.resolved
              resolution := some
                { resolvedAt := now
                  resolvedBy := userId
                  resolutionNotes := req.notes
                  outcome := req.outcome }
              deactivatedAt := some now }
        ({ st with alerts := saveAlert st.alerts alert1 },
         { status := 200, success := true, message := alertResolvedMsg })

/-- `markFalseAlarm` (controller lines 231-260): 404 when the alert is not
found for the caller; otherwise the model method `markAsFalseAlarm`
unconditionally sets status `false-alarm` and `deactivatedAt` — the
controller performs no check of the current status. -/
def markFalseAlarm (now : Nat) (st : Store) (userId alertId : Nat) :
    Store × ApiResponse :=
  match findAlert st alertId userId with
  | none => (st, { status := 404, success := false, message := alertNotFoundMsg })
  | some alert =>
      let alert1 : EmergencyAlert :=
        { alert with status := AlertStatus.falseAlarm, deactivatedAt := some now }
      ({ st with alerts := saveAlert st.alerts alert1 },
       { status := 200, success := true, message := falseAlarmMsg })

/-- Request body of `POST /emergency/contacts`; `isPrimary` is the JS
truthiness of the submitted field. -/
structure ContactBody where
  name : String
  phone : String
  email : Option String
  relation : Option String
  isPrimary : Bool
  notes : Option String

def duplicateContactMsg : String := "Contact with this phone number already exists"

def contactAddedMsg : String := "Emergency contact added successfully"

def contactNotFoundMsg : String := "Contact not found"

def contactUpdatedMsg : String := "Contact updated successfully"

def defaultRelation : String := "Other"

/-- `addEmergencyContact` (controller lines 313-366): 400 when a contact of
the same user already has the submitted phone; otherwise, when
`isPrimary` is truthy, first clears `isPrimary` on every other contact of
the user (`updateMany`), then inserts the new contact with the schema
defaults (active, sms/email preferences on, push off) and appends its id to
the user's `emergencyContacts` array. -/
def addEmergencyContact (now : Nat) (st : Store) (userId : Nat)
    (body : ContactBody) : Store × ApiResponse :=
  match st.contacts.find? (fun c => c.user == userId && c.phone == body.phone) with
  | some _ => (st, { status := 400, success := false, message := duplicateContactMsg })
  | none =>
      let contacts1 :=
        if body.isPrimary then
          st.contacts.map (fun c =>
            if c.user == userId && c.isPrimary then { c with isPrimary := false } else c)
        else st.contacts
      let newContact : EmergencyContact :=
        { id := st.nextContactId
          user := userId
          name := body.name
          phone := body.phone
          email := body.email
          relation := body.relation.getD defaultRelation
          isPrimary := body.isPrimary
          isActive := true
          prefSms := true
          prefEmail := true
          prefPush := false
          alertCount := 0
          lastAlertSent := none
          notes := body.notes
          createdAt := now }
      ({ st with
           contacts := contacts1 ++ [newContact]
           nextContactId := st.nextContactId + 1
           users := st.users.map (fun u =>
             if u.id == userId then
               { u with emergencyContacts := u.emergencyContacts ++ [newContact.id] }
             else u) },
       { status := 201, success := true, message := contactAddedMsg })

/-- Patch body of `PUT /emergency/contacts/:id`: absent fields are left as
they are by `findByIdAndUpdate`. -/
structure ContactPatch where
  name : Option String
  phone : Option String
  email : Option String
  relation : Option String
  isPrimary : Option Bool
  isActive : Option Bool
  notes : Option String

/-- `findByIdAndUpdate(id, req.body)`: overwrite exactly the submitted fields. -/
def applyPatch (p : ContactPatch) (c : EmergencyContact) : EmergencyContact :=
  { c with
      name := p.name.getD c.name
      phone := p.phone.getD c.phone
      email := match p.email with | some e => some e | none => c.email
      relation := p.relation.getD c.relation
      isPrimary := p.isPrimary.getD c.isPrimary
      isActive := p.isActive.getD c.isActive
      notes := match p.notes with | some n => some n | none => c.notes }

/-- `updateEmergencyContact` (controller lines 393-437): 404 when the
contact is not found for the caller; when the patch sets `isPrimary`
truthily, clears `isPrimary` on every other contact of the user; then
`findByIdAndUpdate` applies the patch to the document with that id. -/
def updateEmergencyContact (st : Store) (userId contactId : Nat)
    (p : ContactPatch) : Store × ApiResponse :=
  match st.contacts.find? (fun c => c.id == contactId && c.user == userId) with
  | none => (st, { status := 404, success := false, message := contactNotFoundMsg })
  | some _ =>
      let contacts1 :=
        if p.isPrimary.getD false then
          st.contacts.map (fun c =>
            if c.user == userId && c.id != contactId && c.isPrimary then
              { c with isPrimary := false }
            else c)
        else st.contacts
      let contacts2 := contacts1.map (fun c => if c.id == contactId then applyPatch p c else c)
      ({ st with contacts := contacts2 },
       { status := 200, success := true, message := contactUpdatedMsg })

/-- Static configuration and external outcomes of services/smsService.js:
whether the Twilio credentials were present at startup, whether a Termii
api key is set, and whether the external Termii / Twilio calls for a given
phone number succeed. -/
structure SmsConfig where
  twilioConfigured : Bool
  termiiApiKey : Bool
  termiiSendOk : String → Bool
  twilioSendOk : String → Bool

/-- Does the `sendSMS` promise resolve or reject? -/
inductive SmsOutcome
  | resolvedOk
  | rejected
deriving DecidableEq

def ngCountryCode : String := "+234"

/-- JS `String.prototype.startsWith`, via the underlying character lists. -/
def jsStartsWith (s p : String) : Bool :=
  p.data.isPrefixOf s.data

/-- `sendSMS` (smsService.js lines 37-64): Nigerian numbers go through
Termii when an api key is set; otherwise, when no Twilio client was
configured, the function logs a warning and RESOLVES with
`{ success: false, message: 'SMS service not configured' }` instead of
throwing; otherwise it calls Twilio. Provider errors are caught and
re-thrown. -/
def sendSMS (cfg : SmsConfig) (phone : String) : SmsOutcome :=
  if jsStartsWith phone ngCountryCode && cfg.termiiApiKey then
    if cfg.termiiSendOk phone then SmsOutcome.resolvedOk else SmsOutcome.rejected
  else if !cfg.twilioConfigured then
    SmsOutcome.resolvedOk
  else if cfg.twilioSendOk phone then SmsOutcome.resolvedOk else SmsOutcome.rejected

/-- The channel environment induced by a concrete SMS configuration:
the controller's `await sendSMS(contact.phone, ...)` succeeds exactly when
`sendSMS` resolves. -/
def smsEnvOf (cfg : SmsConfig) (emailOk pushOk : EmergencyContact → Bool) : ChannelEnv :=
  { smsOk := fun c => sendSMS cfg c.phone == SmsOutcome.resolvedOk
    emailOk := emailOk
    pushOk := pushOk }

/-! Concrete sample data used to evaluate the operations on explicit inputs. -/

def cexUser : User :=
  { id := 1, name := "Ada", email := "ada@example.com", phone := "+15551234567"
    longitude := 3, latitude := 6, address := none, locationUpdatedAt := none
    emergencyContacts := [10, 11, 12] }

/-- A contact of user 1 with the SMS and email channels enabled
(two enabled channels) and an email address present. -/
def cexContact (i : Nat) : EmergencyContact :=
  { id := 10 + i, user := 1, name := "C", phone := "+1555000000" ++ toString i
    email := some "c@example.com", relation := "Friend", isPrimary := false
    isActive := true, prefSms := true, prefEmail := true, prefPush := false
    alertCount := 0, lastAlertSent := none, notes := none, createdAt := i }

/-- User 1 with three active contacts, each with two enabled channels. -/
def cexStore3 : Store :=
  { users := [cexUser], contacts := [cexContact 0, cexContact 1, cexContact 2]
    alerts := [], nextAlertId := 100, nextContactId := 13 }

/-- A well-formed activation request (both coordinates truthy). -/
def cexReq : PanicRequest :=
  { longitude := some 3, latitude := some 6, address := none, accuracy := none
    alertType := none, message := none }

/-- Every channel attempt rejects. -/
def cexEnvAllFail : ChannelEnv :=
  { smsOk := fun _ => false, emailOk := fun _ => false, pushOk := fun _ => false }

/-- User 1 with no contacts at all. -/
def wEmptyStore : Store :=
  { users := [cexUser], contacts := [], alerts := [], nextAlertId := 0, nextContactId := 0 }

/-- An alert of user 1 already in the terminal `resolved` state. -/
def cexResolvedAlert : EmergencyAlert :=
  { id := 5, user := 1, alertType := defaultAlertType, status := AlertStatus.resolved
    location := { longitude := 3, latitude := 6, address := none, accuracy := none }
    message := none, notifiedContacts := [], resolution := none
    activatedAt := 0, deactivatedAt := some 500, duration := some 0 }

def cexStore2 : Store :=
  { users := [cexUser], contacts := [], alerts := [cexResolvedAlert]
    nextAlertId := 6, nextContactId := 1 }

/-- An alert of user 1 still in the `active` state. -/
def wActiveAlert : EmergencyAlert :=
  { id := 5, user := 1, alertType := defaultAlertType, status := AlertStatus.active
    location := { longitude := 3, latitude := 6, address := none, accuracy := none }
    message := none, notifiedContacts := [], resolution := none
    activatedAt := 0, deactivatedAt := none, duration := none }

def wStore4 : Store :=
  { users := [cexUser], contacts := [], alerts := [wActiveAlert]
    nextAlertId := 6, nextContactId := 0 }

def wResolveReq : ResolveRequest :=
  { outcome := some "safe", notes := some "ok" }

/-- Contact A of user 1, currently primary. -/
def wPrimaryA : EmergencyContact :=
  { cexContact 0 with isPrimary := true }

/-- Contact B of user 1, currently not primary. -/
def wContactB : EmergencyContact :=
  cexContact 1

def wStoreP : Store :=
  { users := [cexUser], contacts := [wPrimaryA, wContactB], alerts := []
    nextAlertId := 0, nextContactId := 50 }

/-- A new-contact body asking to become primary, with a fresh phone number. -/
def wBody : ContactBody :=
  { name := "New", phone := "+15557770001", email := none, relation := some "Friend"
    isPrimary := true, notes := none }

/-- A patch that only sets `isPrimary` to true. -/
def wPatch : ContactPatch :=
  { name := none, phone := none, email := none, relation := none
    isPrimary := some true, isActive := none, notes := none }

/-- A new-contact body whose phone duplicates contact 10 of user 1. -/
def wBodyDup : ContactBody :=
  { name := "Dup", phone := (cexContact 0).phone, email := none, relation := none
    isPrimary := false, notes := none }

/-- SMS provider entirely unconfigured: no Twilio client, no Termii key. -/
def cfgOff : SmsConfig :=
  { twilioConfigured := false, termiiApiKey := false
    termiiSendOk := fun _ => true, twilioSendOk := fun _ => true }

/-! Helper lemmas shared by the claim theorems. -/

/-- Success path of `activatePanicButton`: with a truthy location, a
non-empty active-contact set and an existing user document, the call
answers 201, folds the per-contact saves into the contact collection,
and stores the outcome list on the created alert. -/
theorem activate_success_parts
    (env : ChannelEnv) (now : Nat) (st : Store) (userId : Nat)
    (req : PanicRequest) (user : User)
    (hlon : jsTruthyNum req.longitude = true)
    (hlat : jsTruthyNum req.latitude = true)
    (hne : getActiveContacts st userId ≠ [])
    (huser : findUser st userId = some user) :
    (activatePanicButton env now st userId req).2 =
      { status := 201, success := true, message := activatedMsg } ∧
    (activatePanicButton env now st userId req).1.contacts =
      (((getActiveContacts st userId).map (notifyContact env now)).map Prod.snd).foldl
        saveContact st.contacts ∧
    ∃ a ∈ (activatePanicButton env now st userId req).1.alerts,
      a.id = st.nextAlertId ∧ a.user = userId ∧ a.status = AlertStatus.active ∧
      a.activatedAt = now ∧
      a.notifiedContacts =
        ((getActiveContacts st userId).map (notifyContact env now)).map Prod.fst := by
  have hlen : ((getActiveContacts st userId).length == 0) = false := by
    simp [List.length_eq_zero, hne]
  have huser1 : ∀ (al : List EmergencyAlert) (n : Nat),
      findUser { st with alerts := al, nextAlertId := n } userId = some user := by
    intro al n
    exact huser
  unfold activatePanicButton
  simp only [hlon, hlat, Bool.not_true, Bool.or_self, Bool.false_eq_true, if_false, hlen,
    huser1]
  refine ⟨trivial, trivial, ?_⟩
  refine ⟨_, List.mem_map.mpr ⟨_, List.mem_append_right _ (List.mem_singleton.mpr rfl), rfl⟩, ?_⟩
  simp

/-- The outcome record built for one contact: its `contact` reference,
its timestamp, and how `deliveryStatus` reflects the SMS attempt. -/
theorem notifyContact_outcome (env : ChannelEnv) (now : Nat) (c : EmergencyContact) :
    (notifyContact env now c).1.contact = c.id ∧
    (notifyContact env now c).1.notifiedAt = now ∧
    (notifyContact env now c).1.deliveryStatus =
      (if c.prefSms then
        (if env.smsOk c then DeliveryStatus.sent else DeliveryStatus.failed)
       else DeliveryStatus.pending) := by
  refine ⟨rfl, rfl, ?_⟩
  cases hp : c.prefSms <;> cases hs : env.smsOk c <;> simp [notifyContact, hp, hs]

/-- The per-contact save never changes the contact id. -/
theorem notifyContact_id (env : ChannelEnv) (now : Nat) (c : EmergencyContact) :
    (notifyContact env now c).2.id = c.id := by
  simp only [notifyContact]
  split <;> rfl

/-- After a successful SMS attempt the contact is saved with the alert
counter incremented and the last-alert timestamp set. -/
theorem notifyContact_updated (env : ChannelEnv) (now : Nat) (c : EmergencyContact)
    (h : (c.prefSms && env.smsOk c) = true) :
    (notifyContact env now c).2 =
      { c with alertCount := c.alertCount + 1, lastAlertSent := some now } := by
  simp only [notifyContact]
  rw [if_pos h]

/-- Every active contact of a user is a stored contact. -/
theorem mem_getActiveContacts {st : Store} {u : Nat} {c : EmergencyContact}
    (hc : c ∈ getActiveContacts st u) : c ∈ st.contacts := by
  unfold getActiveContacts at hc
  rw [List.mem_insertionSort] at hc
  exact (List.mem_filter.mp hc).1

/-- A document whose id none of the pending saves carries survives the
fold of saves unchanged. -/
theorem mem_foldl_saveContact_frozen
    (upd : List EmergencyContact) (all : List EmergencyContact) (c : EmergencyContact)
    (hc : c ∈ all) (h : ∀ u ∈ upd, u.id ≠ c.id) :
    c ∈ upd.foldl saveContact all := by
  induction upd generalizing all with
  | nil => simpa using hc
  | cons u rest ih =>
    simp only [List.foldl_cons]
    apply ih
    · refine List.mem_map.mpr ⟨c, hc, ?_⟩
      rw [if_neg]
      intro hb
      simp only [beq_iff_eq] at hb
      exact h u (List.mem_cons_self _ _) hb.symm
    · intro v hv
      exact h v (List.mem_cons_of_mem _ hv)

/-- Each pending save with a distinct id and a matching stored document
ends up in the collection after the fold of saves. -/
theorem mem_foldl_saveContact
    (upd : List EmergencyContact) (all : List EmergencyContact) (c : EmergencyContact)
    (hc : c ∈ upd)
    (hex : ∃ d ∈ all, d.id = c.id)
    (hnd : (upd.map (fun x => x.id)).Nodup) :
    c ∈ upd.foldl saveContact all := by
  induction upd generalizing all with
  | nil => cases hc
  | cons u rest ih =>
    simp only [List.map_cons, List.nodup_cons, List.mem_map] at hnd
    simp only [List.foldl_cons]
    rcases List.mem_cons.mp hc with rfl | hc2
    · apply mem_foldl_saveContact_frozen
      · obtain ⟨d, hd, hdid⟩ := hex
        refine List.mem_map.mpr ⟨d, hd, ?_⟩
        rw [if_pos (by simp [hdid])]
      · intro v hv hvc
        exact hnd.1 ⟨v, hv, hvc⟩
    · refine ih (saveContact all u) hc2 ?_ hnd.2
      obtain ⟨d, hd, hdid⟩ := hex
      by_cases hdu : (d.id == u.id) = true
      · refine ⟨u, List.mem_map.mpr ⟨d, hd, by rw [if_pos hdu]⟩, ?_⟩
        have : d.id = u.id := by simpa using hdu
        rw [← this, hdid]
      · exact ⟨d, List.mem_map.mpr ⟨d, hd, by rw [if_neg (by simp_all)]⟩, hdid⟩

/-- Distinct stored contact ids stay distinct in the active-contact view. -/
theorem activeContactIdsNodup {st : Store} {u : Nat}
    (hnd : (st.contacts.map (fun c => c.id)).Nodup) :
    ((getActiveContacts st u).map (fun c => c.id)).Nodup := by
  have hsub := List.filter_sublist (l := st.contacts)
    (p := fun c => c.user == u && c.isActive)
  have hnd2 : ((st.contacts.filter (fun c => c.user == u && c.isActive)).map
      (fun c => c.id)).Nodup := (hsub.map _).nodup hnd
  have hperm := (List.perm_insertionSort contactLe
    (st.contacts.filter (fun c => c.user == u && c.isActive))).map (fun c => c.id)
  exact hperm.nodup_iff.mpr hnd2

/-- When a list with pairwise-distinct ids has exactly one member
satisfying a predicate, filtering returns that singleton. -/
theorem filterSingletonOfNodupIds
    {l : List EmergencyContact} {b : EmergencyContact}
    (p : EmergencyContact → Bool)
    (hb : b ∈ l) (hnd : (l.map (fun c => c.id)).Nodup)
    (hpb : p b = true)
    (hp : ∀ a ∈ l, p a = true → a.id = b.id) :
    l.filter p = [b] := by
  induction l with
  | nil => cases hb
  | cons x xs ih =>
    simp only [List.map_cons, List.nodup_cons, List.mem_map] at hnd
    rcases List.mem_cons.mp hb with rfl | hb2
    · rw [List.filter_cons_of_pos hpb]
      have hnil : xs.filter p = [] := by
        rw [List.filter_eq_nil_iff]
        intro a ha hpa
        exact hnd.1 ⟨a, ha, hp a (List.mem_cons_of_mem _ ha) hpa⟩
      rw [hnil]
    · have hpx : p x = false := by
        by_contra h
        have hx : p x = true := by simpa using h
        exact hnd.1 ⟨b, hb2, (hp x (List.mem_cons_self _ _) hx).symm⟩
      rw [List.filter_cons_of_neg (by simp [hpx])]
      exact ih hb2 hnd.2 (fun a ha hpa => hp a (List.mem_cons_of_mem _ ha) hpa)

/-- Floor division of a natural cast by 1000 agrees with natural division. -/
theorem fdivThousandNat (k : Nat) :
    Int.fdiv (k : Int) (1000 : Int) = ((k / 1000 : Nat) : Int) := by
  rw [Int.fdiv_eq_ediv] <;> simp [Int.ofNat_ediv]

/-- Claim C1: for every user with zero active emergency contacts,
activating the panic alert leaves the alert collection unchanged, and —
whenever the request passes the location presence check — fails with the
400 "No emergency contacts found" response and leaves the whole store
untouched. -/
theorem activateRefusedWithoutContacts
    (env : ChannelEnv) (now : Nat) (st : Store) (userId : Nat) (req : PanicRequest)
    (hempty : getActiveContacts st userId = []) :
    (activatePanicButton env now st userId req).1.alerts = st.alerts ∧
    (jsTruthyNum req.longitude = true → jsTruthyNum req.latitude = true →
      activatePanicButton env now st userId req =
        (st, { status := 400, success := false, message := noContactsMsg })) := by
  constructor
  · unfold activatePanicButton
    by_cases hl : (!jsTruthyNum req.longitude || !jsTruthyNum req.latitude) = true
    · simp [hl]
    · simp only [Bool.not_eq_true] at hl
      simp [hl, hempty]
  · intro hlon hlat
    unfold activatePanicButton
    simp [hlon, hlat, hempty]

/-- Claim C1 witness: user 1 of the contact-free store, with a well-formed
request, is refused with the no-contacts response and nothing is written. -/
theorem activateRefusedWithoutContacts_witness :
    getActiveContacts wEmptyStore 1 = [] ∧
    (activatePanicButton cexEnvAllFail 1000 wEmptyStore 1 cexReq).1.alerts =
      wEmptyStore.alerts ∧
    activatePanicButton cexEnvAllFail 1000 wEmptyStore 1 cexReq =
      (wEmptyStore, { status := 400, success := false, message := noContactsMsg }) :=
  ⟨by decide,
   (activateRefusedWithoutContacts cexEnvAllFail 1000 wEmptyStore 1 cexReq (by decide)).1,
   (activateRefusedWithoutContacts cexEnvAllFail 1000 wEmptyStore 1 cexReq (by decide)).2
     (by decide) (by decide)⟩

/-- Claim C2 counterexample: alert 5 of user 1 is in the terminal state
`resolved`, yet `markFalseAlarm` answers 200 `success:true` and rewrites
the status to `false-alarm` and the deactivation timestamp to the current
time — it does not fail with an invalid-transition error and does not
leave the alert unchanged. -/
theorem markFalseAlarmTerminal_cex :
    cexResolvedAlert.status ≠ AlertStatus.active ∧
    findAlert cexStore2 5 1 = some cexResolvedAlert ∧
    (markFalseAlarm 1000 cexStore2 1 5).2 =
      { status := 200, success := true, message := falseAlarmMsg } ∧
    (markFalseAlarm 1000 cexStore2 1 5).1.alerts.map (fun a => a.status) =
      [AlertStatus.falseAlarm] ∧
    (markFalseAlarm 1000 cexStore2 1 5).1.alerts.map (fun a => a.deactivatedAt) =
      [some 1000] := by
  decide

/-- Claim C2 (amended): `markFalseAlarm` performs no status check — for
every found alert, whatever its current status (active or terminal), it
answers 200 `success:true`, sets the status to `false-alarm` and the
deactivation timestamp, and leaves alerts with other ids in place;
repeated calls keep succeeding. -/
theorem markFalseAlarmAlwaysSucceeds
    (now : Nat) (st : Store) (userId alertId : Nat) (alert : EmergencyAlert)
    (hfind : findAlert st alertId userId = some alert) :
    (markFalseAlarm now st userId alertId).2 =
      { status := 200, success := true, message := falseAlarmMsg } ∧
    (∃ a ∈ (markFalseAlarm now st userId alertId).1.alerts,
      a.id = alert.id ∧ a.user = alert.user ∧ a.status = AlertStatus.falseAlarm ∧
      a.deactivatedAt = some now) ∧
    (∀ a ∈ st.alerts, a.id ≠ alert.id →
      a ∈ (markFalseAlarm now st userId alertId).1.alerts) := by
  have hmem : alert ∈ st.alerts := List.mem_of_find?_eq_some hfind
  have hpred := List.find?_some hfind
  simp only [Bool.and_eq_true, beq_iff_eq] at hpred
  unfold markFalseAlarm
  rw [hfind]
  refine ⟨rfl, ?_, ?_⟩
  · refine ⟨computeDuration
      { alert with status := AlertStatus.falseAlarm, deactivatedAt := some now }, ?_, ?_⟩
    · simp only [saveAlert]
      exact List.mem_map.mpr ⟨alert, hmem, by simp⟩
    · simp [computeDuration]
  · intro a ha hne
    simp only [saveAlert]
    refine List.mem_map.mpr ⟨a, ha, ?_⟩
    have hne2 : (a.id == alert.id) = false := by simp [hne]
    have hne3 : (a.id == alertId) = false := by
      have := hpred.1 ▸ hne
      simp [this]
    simp [hne2, hne3]

/-- Claim C2 witness: the amended statement evaluated on the store holding
the already-resolved alert 5 of user 1. -/
theorem markFalseAlarmAlwaysSucceeds_witness :
    findAlert cexStore2 5 1 = some cexResolvedAlert ∧
    ((markFalseAlarm 1000 cexStore2 1 5).2 =
      { status := 200, success := true, message := falseAlarmMsg } ∧
    (∃ a ∈ (markFalseAlarm 1000 cexStore2 1 5).1.alerts,
      a.id = cexResolvedAlert.id ∧ a.user = cexResolvedAlert.user ∧
      a.status = AlertStatus.falseAlarm ∧ a.deactivatedAt = some 1000) ∧
    (∀ a ∈ cexStore2.alerts, a.id ≠ cexResolvedAlert.id →
      a ∈ (markFalseAlarm 1000 cexStore2 1 5).1.alerts)) :=
  ⟨by decide, markFalseAlarmAlwaysSucceeds 1000 cexStore2 1 5 cexResolvedAlert (by decide)⟩

/-- Claim C3 counterexample: three contacts with two enabled channels each
(SMS and email) and every channel attempt failing produce three outcome
entries — one per contact, not the six (one per enabled channel per
contact) the claim asserts — each marked `failed`, while the request still
answers 201 `success:true`. -/
theorem dispatchOutcomePerChannel_cex :
    (getActiveContacts cexStore3 1).length = 3 ∧
    (∀ c ∈ getActiveContacts cexStore3 1,
      c.prefSms = true ∧ c.prefEmail = true ∧ jsTruthyStr c.email = true ∧
      c.prefPush = false) ∧
    (activatePanicButton cexEnvAllFail 1000 cexStore3 1 cexReq).1.alerts.map
      (fun a => a.notifiedContacts.length) = [3] ∧
    ¬ (activatePanicButton cexEnvAllFail 1000 cexStore3 1 cexReq).1.alerts.map
      (fun a => a.notifiedContacts.length) = [6] ∧
    (activatePanicButton cexEnvAllFail 1000 cexStore3 1 cexReq).1.alerts.map
      (fun a => a.notifiedContacts.map (fun o => o.deliveryStatus)) =
      [[DeliveryStatus.failed, DeliveryStatus.failed, DeliveryStatus.failed]] ∧
    (activatePanicButton cexEnvAllFail 1000 cexStore3 1 cexReq).2.success = true ∧
    (activatePanicButton cexEnvAllFail 1000 cexStore3 1 cexReq).2.status = 201 := by
  decide

/-- Claim C3 (amended): for every valid activation, dispatch returns
exactly one outcome entry per active contact — the entry carrying the list
of methods that succeeded — with no early abort: even when every channel
attempt fails, every contact still gets its entry (`failed` when its SMS
attempt threw), and the activation request answers 201 `success:true`. -/
theorem dispatchOneOutcomePerContact
    (env : ChannelEnv) (now : Nat) (st : Store) (userId : Nat)
    (req : PanicRequest) (user : User)
    (hlon : jsTruthyNum req.longitude = true)
    (hlat : jsTruthyNum req.latitude = true)
    (hne : getActiveContacts st userId ≠ [])
    (huser : findUser st userId = some user) :
    (activatePanicButton env now st userId req).2 =
      { status := 201, success := true, message := activatedMsg } ∧
    ∃ a ∈ (activatePanicButton env now st userId req).1.alerts,
      a.id = st.nextAlertId ∧
      a.notifiedContacts =
        (getActiveContacts st userId).map (fun c => (notifyContact env now c).1) ∧
      a.notifiedContacts.length = (getActiveContacts st userId).length ∧
      ∀ c ∈ getActiveContacts st userId, c.prefSms = true → env.smsOk c = false →
        ∃ o ∈ a.notifiedContacts, o.contact = c.id ∧
          o.deliveryStatus = DeliveryStatus.failed := by
  obtain ⟨hresp, _, a, ha, hid, _, _, _, hnotif⟩ :=
    activate_success_parts env now st userId req user hlon hlat hne huser
  rw [List.map_map] at hnotif
  refine ⟨hresp, a, ha, hid, hnotif, by rw [hnotif, List.length_map], ?_⟩
  intro c hc hsms hfail
  refine ⟨(notifyContact env now c).1, ?_, (notifyContact_outcome env now c).1, ?_⟩
  · rw [hnotif]
    exact List.mem_map_of_mem _ hc
  · rw [(notifyContact_outcome env now c).2.2, hsms, hfail]
    simp

/-- Claim C3 witness: the amended statement evaluated on the store with
three two-channel contacts and the all-failing channel environment. -/
theorem dispatchOneOutcomePerContact_witness :
    jsTruthyNum cexReq.longitude = true ∧
    jsTruthyNum cexReq.latitude = true ∧
    getActiveContacts cexStore3 1 ≠ [] ∧
    findUser cexStore3 1 = some cexUser ∧
    ((activatePanicButton cexEnvAllFail 1000 cexStore3 1 cexReq).2 =
      { status := 201, success := true, message := activatedMsg } ∧
    ∃ a ∈ (activatePanicButton cexEnvAllFail 1000 cexStore3 1 cexReq).1.alerts,
      a.id = cexStore3.nextAlertId ∧
      a.notifiedContacts =
        (getActiveContacts cexStore3 1).map
          (fun c => (notifyContact cexEnvAllFail 1000 c).1) ∧
      a.notifiedContacts.length = (getActiveContacts cexStore3 1).length ∧
      ∀ c ∈ getActiveContacts cexStore3 1, c.prefSms = true →
        cexEnvAllFail.smsOk c = false →
        ∃ o ∈ a.notifiedContacts, o.contact = c.id ∧
          o.deliveryStatus = DeliveryStatus.failed) :=
  ⟨by decide, by decide, by decide, by decide,
   dispatchOneOutcomePerContact cexEnvAllFail 1000 cexStore3 1 cexReq cexUser
     (by decide) (by decide) (by decide) (by decide)⟩

/-- Claim C9: a request whose latitude or longitude equals 0 — a present,
well-formed coordinate — is rejected with the 400 "Location is required"
response and the store is unchanged, because the presence check
`!longitude || !latitude` treats the numeric value 0 as missing. -/
theorem zeroCoordinateRejected
    (env : ChannelEnv) (now : Nat) (st : Store) (userId : Nat) (req : PanicRequest)
    (h : req.latitude = some 0 ∨ req.longitude = some 0) :
    activatePanicButton env now st userId req =
      (st, { status := 400, success := false, message := locationRequiredMsg }) := by
  unfold activatePanicButton
  rcases h with h | h <;> simp [h, jsTruthyNum]

/-- Claim C9 witness: the zero-latitude request against the store with
three active contacts is rejected and creates no alert. -/
theorem zeroCoordinateRejected_witness :
    ({ cexReq with latitude := some 0 } : PanicRequest).latitude = some 0 ∧
    activatePanicButton cexEnvAllFail 1000 cexStore3 1 { cexReq with latitude := some 0 } =
      (cexStore3, { status := 400, success := false, message := locationRequiredMsg }) :=
  ⟨by decide,
   zeroCoordinateRejected cexEnvAllFail 1000 cexStore3 1 { cexReq with latitude := some 0 }
     (Or.inl (by decide))⟩

/-- Claim C4: on a found alert, `resolveAlert` fails with the 400
"Alert is not active" response (and changes nothing) unless the current
status is `active`; when it is, it answers 200, sets status `resolved`,
records the resolution block, sets the deactivation timestamp, and
recomputes the duration as the whole number of seconds between
deactivation and activation, which is non-negative. -/
theorem resolveAlertSpec
    (now : Nat) (st : Store) (userId alertId : Nat) (req : ResolveRequest)
    (alert : EmergencyAlert)
    (hfind : findAlert st alertId userId = some alert) :
    (alert.status ≠ AlertStatus.active →
      resolveAlert now st userId alertId req =
        (st, { status := 400, success := false, message := alertNotActiveMsg })) ∧
    (alert.status = AlertStatus.active → alert.activatedAt ≤ now →
      (resolveAlert now st userId alertId req).2 =
        { status := 200, success := true, message := alertResolvedMsg } ∧
      ∃ a ∈ (resolveAlert now st userId alertId req).1.alerts,
        a.id = alert.id ∧ a.status = AlertStatus.resolved ∧
        a.resolution = some
          { resolvedAt := now, resolvedBy := userId
            resolutionNotes := req.notes, outcome := req.outcome } ∧
        a.deactivatedAt = some now ∧
        a.duration = some (((now - alert.activatedAt) / 1000 : Nat) : Int) ∧
        (∀ d, a.duration = some d → 0 ≤ d)) := by
  have hmem : alert ∈ st.alerts := List.mem_of_find?_eq_some hfind
  constructor
  · intro hst
    unfold resolveAlert
    rw [hfind]
    have : (alert.status != AlertStatus.active) = true := by
      simpa using hst
    simp [this]
  · intro hst hle
    unfold resolveAlert
    rw [hfind]
    have hbne : (alert.status != AlertStatus.active) = false := by
      simp [hst]
    simp only [hbne, Bool.false_eq_true, if_false]
    refine ⟨trivial, ?_⟩
    refine ⟨_, List.mem_map.mpr ⟨alert, hmem, if_pos (by simp)⟩, ?_⟩
    simp only [computeDuration]
    refine ⟨trivial, trivial, trivial, trivial, ?_, ?_⟩
    · show some (Int.fdiv ((now : Int) - (alert.activatedAt : Int)) 1000) = _
      rw [← Int.natCast_sub hle, fdivThousandNat]
    · intro d hd
      simp only [Option.some.injEq] at hd
      rw [← hd, ← Int.natCast_sub hle, fdivThousandNat]
      exact Int.natCast_nonneg _

/-- Claim C4 witness: resolving the active alert 5 of user 1 at time 7000
succeeds with the full resolution postcondition. -/
theorem resolveAlertSpec_witness :
    findAlert wStore4 5 1 = some wActiveAlert ∧
    wActiveAlert.status = AlertStatus.active ∧
    wActiveAlert.activatedAt ≤ 7000 ∧
    ((resolveAlert 7000 wStore4 1 5 wResolveReq).2 =
      { status := 200, success := true, message := alertResolvedMsg } ∧
    ∃ a ∈ (resolveAlert 7000 wStore4 1 5 wResolveReq).1.alerts,
      a.id = wActiveAlert.id ∧ a.status = AlertStatus.resolved ∧
      a.resolution = some
        { resolvedAt := 7000, resolvedBy := 1
          resolutionNotes := wResolveReq.notes, outcome := wResolveReq.outcome } ∧
      a.deactivatedAt = some 7000 ∧
      a.duration = some (((7000 - wActiveAlert.activatedAt) / 1000 : Nat) : Int) ∧
      (∀ d, a.duration = some d → 0 ≤ d)) :=
  ⟨by decide, by decide, by decide,
   (resolveAlertSpec 7000 wStore4 1 5 wResolveReq wActiveAlert (by decide)).2
     (by decide) (by decide)⟩

/-- Claim C5: for every valid activation (truthy coordinates, at least one
active contact, existing user) and every pattern of channel failures, the
dispatch phase never raises to the caller: the request answers 201
`success:true`, and each contact's outcome records `sent` when its SMS
attempt resolved, `failed` when it threw, `pending` when SMS was not
enabled for it. -/
theorem dispatchNeverFails
    (env : ChannelEnv) (now : Nat) (st : Store) (userId : Nat)
    (req : PanicRequest) (user : User)
    (hlon : jsTruthyNum req.longitude = true)
    (hlat : jsTruthyNum req.latitude = true)
    (hne : getActiveContacts st userId ≠ [])
    (huser : findUser st userId = some user) :
    (activatePanicButton env now st userId req).2 =
      { status := 201, success := true, message := activatedMsg } ∧
    ∃ a ∈ (activatePanicButton env now st userId req).1.alerts,
      a.id = st.nextAlertId ∧
      ∀ c ∈ getActiveContacts st userId,
        ∃ o ∈ a.notifiedContacts,
          o.contact = c.id ∧
          o.deliveryStatus =
            (if c.prefSms then
              (if env.smsOk c then DeliveryStatus.sent else DeliveryStatus.failed)
             else DeliveryStatus.pending) := by
  obtain ⟨hresp, _, a, ha, hid, _, _, _, hnotif⟩ :=
    activate_success_parts env now st userId req user hlon hlat hne huser
  refine ⟨hresp, a, ha, hid, ?_⟩
  intro c hc
  refine ⟨(notifyContact env now c).1, ?_, ?_, ?_⟩
  · rw [hnotif, List.map_map]
    exact List.mem_map_of_mem _ hc
  · exact (notifyContact_outcome env now c).1
  · exact (notifyContact_outcome env now c).2.2

/-- Claim C5 witness: the best-effort statement evaluated with every
channel attempt failing; the request still answers 201 `success:true`. -/
theorem dispatchNeverFails_witness :
    jsTruthyNum cexReq.longitude = true ∧
    jsTruthyNum cexReq.latitude = true ∧
    getActiveContacts cexStore3 1 ≠ [] ∧
    findUser cexStore3 1 = some cexUser ∧
    ((activatePanicButton cexEnvAllFail 1000 cexStore3 1 cexReq).2 =
      { status := 201, success := true, message := activatedMsg } ∧
    ∃ a ∈ (activatePanicButton cexEnvAllFail 1000 cexStore3 1 cexReq).1.alerts,
      a.id = cexStore3.nextAlertId ∧
      ∀ c ∈ getActiveContacts cexStore3 1,
        ∃ o ∈ a.notifiedContacts,
          o.contact = c.id ∧
          o.deliveryStatus =
            (if c.prefSms then
              (if cexEnvAllFail.smsOk c then DeliveryStatus.sent else DeliveryStatus.failed)
             else DeliveryStatus.pending)) :=
  ⟨by decide, by decide, by decide, by decide,
   dispatchNeverFails cexEnvAllFail 1000 cexStore3 1 cexReq cexUser
     (by decide) (by decide) (by decide) (by decide)⟩

/-- Claim C6: under non-concurrent access, when contact A of a user is
currently primary, an `addEmergencyContact` with `isPrimary=true` (fresh
phone) or an `updateEmergencyContact` setting `isPrimary=true` on another
contact B leaves exactly one primary contact for that user — the new
contact, respectively B — and A is stored with `isPrimary=false` and every
other field unchanged. -/
theorem primaryExclusive
    (now : Nat) (st : Store) (userId : Nat) (A : EmergencyContact)
    (hA : A ∈ st.contacts) (hAu : A.user = userId) (hAp : A.isPrimary = true) :
    (∀ body : ContactBody, body.isPrimary = true →
      (∀ c ∈ st.contacts, ¬(c.user = userId ∧ c.phone = body.phone)) →
      (((addEmergencyContact now st userId body).1.contacts.filter
          (fun c => c.user == userId && c.isPrimary)).map (fun c => c.id) =
        [st.nextContactId]) ∧
      { A with isPrimary := false } ∈ (addEmergencyContact now st userId body).1.contacts) ∧
    (∀ (B : EmergencyContact) (p : ContactPatch),
      B ∈ st.contacts → B.user = userId → B.id ≠ A.id →
      p.isPrimary = some true →
      (st.contacts.map (fun c => c.id)).Nodup →
      ((updateEmergencyContact st userId B.id p).1.contacts.filter
          (fun c => c.user == userId && c.isPrimary) = [applyPatch p B]) ∧
      (applyPatch p B).isPrimary = true ∧ (applyPatch p B).id = B.id ∧
      { A with isPrimary := false } ∈
        (updateEmergencyContact st userId B.id p).1.contacts) := by
  constructor
  · intro body hbp hnodup
    have hnone : st.contacts.find? (fun c => c.user == userId && c.phone == body.phone) = none := by
      rw [List.find?_eq_none]
      intro c hc
      simp only [Bool.and_eq_true, beq_iff_eq, not_and]
      intro hu hp
      exact hnodup c hc ⟨hu, hp⟩
    unfold addEmergencyContact
    rw [hnone]
    simp only [hbp, if_true]
    constructor
    · rw [List.filter_append]
      have h1 : (st.contacts.map (fun c =>
          if c.user == userId && c.isPrimary then { c with isPrimary := false } else c)).filter
          (fun c => c.user == userId && c.isPrimary) = [] := by
        rw [List.filter_eq_nil_iff]
        intro a ha
        obtain ⟨d, _, rfl⟩ := List.mem_map.mp ha
        by_cases hd : (d.user == userId && d.isPrimary) = true
        · simp [hd]
        · simp only [hd, Bool.false_eq_true, if_false]
          simp [hd]
      rw [h1]
      simp
    · refine List.mem_append_left _ ?_
      refine List.mem_map.mpr ⟨A, hA, ?_⟩
      simp [hAu, hAp]
  · intro B p hB hBu hBneA hpp hnd
    have hfind : (st.contacts.find? (fun c => c.id == B.id && c.user == userId)).isSome = true := by
      rw [List.find?_isSome]
      exact ⟨B, hB, by simp [hBu]⟩
    obtain ⟨B0, hB0⟩ := Option.isSome_iff_exists.mp hfind
    unfold updateEmergencyContact
    rw [hB0]
    simp only [hpp, Option.getD_some, if_true]
    set f : EmergencyContact → EmergencyContact := fun c =>
      if c.user == userId && c.id != B.id && c.isPrimary then { c with isPrimary := false } else c
      with hf
    set g : EmergencyContact → EmergencyContact := fun c =>
      if c.id == B.id then applyPatch p c else c with hg
    have hfid : ∀ c, (f c).id = c.id := by
      intro c
      simp only [hf]
      split <;> rfl
    have happ : (applyPatch p B).isPrimary = true := by
      simp [applyPatch, hpp]
    have happid : (applyPatch p B).id = B.id := rfl
    have happu : (applyPatch p B).user = B.user := rfl
    have hfB : f B = B := by
      simp only [hf]
      rw [if_neg]
      simp
    have hgfB : g (f B) = applyPatch p B := by
      rw [hfB]
      simp only [hg]
      rw [if_pos]
      simp
    refine ⟨?_, happ, happid, ?_⟩
    · rw [List.map_map, List.filter_map]
      have hmain : st.contacts.filter
          ((fun c => c.user == userId && c.isPrimary) ∘ (g ∘ f)) = [B] := by
        apply filterSingletonOfNodupIds _ hB hnd
        · simp only [Function.comp_apply, hgfB]
          simp [happ, happu, hBu]
        · intro a ha hpa
          simp only [Function.comp_apply] at hpa
          by_cases hid : (a.id == B.id) = true
          · simpa using hid
          · exfalso
            have hga : g (f a) = f a := by
              simp only [hg]
              rw [if_neg]
              rw [hfid a]
              simpa using hid
            rw [hga] at hpa
            by_cases hcond : (a.user == userId && a.id != B.id && a.isPrimary) = true
            · have hfa : f a = { a with isPrimary := false } := by
                simp only [hf]
                rw [if_pos hcond]
              rw [hfa] at hpa
              simp at hpa
            · have hfa : f a = a := by
                simp only [hf]
                rw [if_neg hcond]
              rw [hfa] at hpa
              simp only [Bool.and_eq_true, beq_iff_eq] at hpa
              apply hcond
              simp only [Bool.and_eq_true, beq_iff_eq, bne_iff_ne, ne_eq]
              refine ⟨⟨hpa.1, by simpa using hid⟩, hpa.2⟩
      rw [hmain]
      simp only [List.map_cons, List.map_nil, Function.comp_apply, hgfB]
    · refine List.mem_map.mpr ⟨f A, List.mem_map.mpr ⟨A, hA, rfl⟩, ?_⟩
      have hcondA : (A.user == userId && A.id != B.id && A.isPrimary) = true := by
        simp only [Bool.and_eq_true, beq_iff_eq, bne_iff_ne, ne_eq]
        exact ⟨⟨hAu, fun h => hBneA h.symm⟩, hAp⟩
      have hfA : f A = { A with isPrimary := false } := by
        simp only [hf]
        rw [if_pos hcondA]
      rw [hfA]
      simp only [hg]
      rw [if_neg]
      intro h
      simp only [beq_iff_eq] at h
      exact hBneA h.symm

/-- Claim C6 witness: with contact 10 currently primary for user 1, adding
a primary contact and separately promoting contact 11 each end with
exactly one primary contact, the old primary demoted in place. -/
theorem primaryExclusive_witness :
    (wPrimaryA ∈ wStoreP.contacts ∧ wPrimaryA.user = 1 ∧ wPrimaryA.isPrimary = true) ∧
    (wBody.isPrimary = true ∧
      (∀ c ∈ wStoreP.contacts, ¬(c.user = 1 ∧ c.phone = wBody.phone))) ∧
    ((((addEmergencyContact 99 wStoreP 1 wBody).1.contacts.filter
        (fun c => c.user == 1 && c.isPrimary)).map (fun c => c.id) =
      [wStoreP.nextContactId]) ∧
      { wPrimaryA with isPrimary := false } ∈
        (addEmergencyContact 99 wStoreP 1 wBody).1.contacts) ∧
    (wContactB ∈ wStoreP.contacts ∧ wContactB.user = 1 ∧ wContactB.id ≠ wPrimaryA.id ∧
      wPatch.isPrimary = some true ∧ (wStoreP.contacts.map (fun c => c.id)).Nodup) ∧
    (((updateEmergencyContact wStoreP 1 wContactB.id wPatch).1.contacts.filter
        (fun c => c.user == 1 && c.isPrimary) = [applyPatch wPatch wContactB]) ∧
      (applyPatch wPatch wContactB).isPrimary = true ∧
      (applyPatch wPatch wContactB).id = wContactB.id ∧
      { wPrimaryA with isPrimary := false } ∈
        (updateEmergencyContact wStoreP 1 wContactB.id wPatch).1.contacts) :=
  ⟨⟨by decide, by decide, by decide⟩,
   ⟨by decide, by decide⟩,
   (primaryExclusive 99 wStoreP 1 wPrimaryA (by decide) (by decide) (by decide)).1
     wBody (by decide) (by decide),
   ⟨by decide, by decide, by decide, by decide, by decide⟩,
   (primaryExclusive 99 wStoreP 1 wPrimaryA (by decide) (by decide) (by decide)).2
     wContactB wPatch (by decide) (by decide) (by decide) (by decide) (by decide)⟩

/-- Claim C7: adding a contact whose phone duplicates an existing contact
of the same user fails with the 400 duplicate response and changes
nothing; adding the same phone for a different user (who does not already
have it) succeeds with 201 and stores the contact. -/
theorem addContactDuplicatePhone
    (now : Nat) (st : Store) (userId otherUserId : Nat) (body : ContactBody)
    (hdup : ∃ c ∈ st.contacts, c.user = userId ∧ c.phone = body.phone) :
    (addEmergencyContact now st userId body =
      (st, { status := 400, success := false, message := duplicateContactMsg })) ∧
    (otherUserId ≠ userId →
      (∀ c ∈ st.contacts, c.user = otherUserId → c.phone ≠ body.phone) →
      (addEmergencyContact now st otherUserId body).2 =
        { status := 201, success := true, message := contactAddedMsg } ∧
      ∃ d ∈ (addEmergencyContact now st otherUserId body).1.contacts,
        d.user = otherUserId ∧ d.phone = body.phone) := by
  constructor
  · have hsome : (st.contacts.find?
        (fun c => c.user == userId && c.phone == body.phone)).isSome = true := by
      rw [List.find?_isSome]
      obtain ⟨c, hc, hu, hp⟩ := hdup
      exact ⟨c, hc, by simp [hu, hp]⟩
    unfold addEmergencyContact
    obtain ⟨c, hc⟩ := Option.isSome_iff_exists.mp hsome
    rw [hc]
  · intro hne hnodup
    have hnone : st.contacts.find?
        (fun c => c.user == otherUserId && c.phone == body.phone) = none := by
      rw [List.find?_eq_none]
      intro c hc
      simp only [Bool.and_eq_true, beq_iff_eq, not_and]
      intro hu hp
      exact hnodup c hc hu hp
    unfold addEmergencyContact
    rw [hnone]
    refine ⟨rfl, ?_⟩
    refine ⟨_, List.mem_append_right _ (List.mem_singleton.mpr rfl), rfl, rfl⟩

/-- Claim C7 witness: re-adding contact 10's phone for user 1 is refused
and writes nothing, while user 2 can register the same phone. -/
theorem addContactDuplicatePhone_witness :
    (∃ c ∈ cexStore3.contacts, c.user = 1 ∧ c.phone = wBodyDup.phone) ∧
    (addEmergencyContact 99 cexStore3 1 wBodyDup =
      (cexStore3, { status := 400, success := false, message := duplicateContactMsg })) ∧
    ((addEmergencyContact 99 cexStore3 2 wBodyDup).2 =
      { status := 201, success := true, message := contactAddedMsg } ∧
    ∃ d ∈ (addEmergencyContact 99 cexStore3 2 wBodyDup).1.contacts,
      d.user = 2 ∧ d.phone = wBodyDup.phone) :=
  ⟨by decide,
   (addContactDuplicatePhone 99 cexStore3 1 2 wBodyDup (by decide)).1,
   (addContactDuplicatePhone 99 cexStore3 1 2 wBodyDup (by decide)).2
     (by decide) (by decide)⟩

/-- Claim C8: `getActiveContacts` returns exactly the user's contacts
whose active flag is set (as a permutation of the filter), every returned
contact belongs to the user and is active, and the result is ordered with
primary contacts first and, within each primary group, by creation order
(earliest first). -/
theorem getActiveContactsSpec (st : Store) (userId : Nat) :
    (getActiveContacts st userId).Perm
      (st.contacts.filter (fun c => c.user == userId && c.isActive)) ∧
    (∀ c ∈ getActiveContacts st userId, c.user = userId ∧ c.isActive = true) ∧
    List.Sorted contactLe (getActiveContacts st userId) ∧
    (getActiveContacts st userId).Pairwise (fun c d =>
      (c.isPrimary = false → d.isPrimary = false) ∧
      (c.isPrimary = d.isPrimary → c.createdAt ≤ d.createdAt)) := by
  have hperm := List.perm_insertionSort contactLe
    (st.contacts.filter (fun c => c.user == userId && c.isActive))
  have hsorted := List.sorted_insertionSort contactLe
    (st.contacts.filter (fun c => c.user == userId && c.isActive))
  refine ⟨hperm, ?_, hsorted, ?_⟩
  · intro c hc
    have := List.mem_filter.mp (hperm.mem_iff.mp hc)
    simpa using this.2
  · refine hsorted.imp ?_
    intro c d hcd
    rcases hcd with h | ⟨h, hc⟩
    · unfold contactRank at h
      constructor
      · intro hcp
        by_contra hdp
        simp only [Bool.not_eq_false] at hdp
        simp [hcp, hdp] at h
      · intro hee
        rw [hee] at h
        simp at h
    · unfold contactRank at h
      constructor
      · intro hcp
        by_contra hdp
        simp only [Bool.not_eq_false] at hdp
        simp [hcp, hdp] at h
      · intro _
        exact hc

/-- Claim C10: with neither a Twilio client nor a Termii key configured,
`sendSMS` resolves (never throws) for every phone number; consequently,
for every valid activation, every active contact with the SMS preference
enabled gets its outcome recorded as `sent` and is saved with its alert
counter incremented and its last-alert timestamp set, even though no SMS
was actually delivered. -/
theorem smsUnconfiguredMarksSent
    (cfg : SmsConfig) (emailOk pushOk : EmergencyContact → Bool)
    (now : Nat) (st : Store) (userId : Nat) (req : PanicRequest) (user : User)
    (hT : cfg.twilioConfigured = false) (hK : cfg.termiiApiKey = false)
    (hlon : jsTruthyNum req.longitude = true)
    (hlat : jsTruthyNum req.latitude = true)
    (hne : getActiveContacts st userId ≠ [])
    (huser : findUser st userId = some user)
    (hnd : (st.contacts.map (fun c => c.id)).Nodup) :
    (∀ phone, sendSMS cfg phone = SmsOutcome.resolvedOk) ∧
    (activatePanicButton (smsEnvOf cfg emailOk pushOk) now st userId req).2 =
      { status := 201, success := true, message := activatedMsg } ∧
    ∃ a ∈ (activatePanicButton (smsEnvOf cfg emailOk pushOk) now st userId req).1.alerts,
      a.id = st.nextAlertId ∧
      ∀ c ∈ getActiveContacts st userId, c.prefSms = true →
        (∃ o ∈ a.notifiedContacts, o.contact = c.id ∧
          o.deliveryStatus = DeliveryStatus.sent) ∧
        (∃ d ∈ (activatePanicButton (smsEnvOf cfg emailOk pushOk) now st userId req).1.contacts,
          d.id = c.id ∧ d.alertCount = c.alertCount + 1 ∧ d.lastAlertSent = some now) := by
  have hsend : ∀ phone, sendSMS cfg phone = SmsOutcome.resolvedOk := by
    intro phone
    simp [sendSMS, hT, hK]
  have hsms : ∀ c, (smsEnvOf cfg emailOk pushOk).smsOk c = true := by
    intro c
    simp [smsEnvOf, hsend]
  obtain ⟨hresp, hcont, a, ha, hid, _, _, _, hnotif⟩ :=
    activate_success_parts (smsEnvOf cfg emailOk pushOk) now st userId req user
      hlon hlat hne huser
  refine ⟨hsend, hresp, a, ha, hid, ?_⟩
  intro c hc hpref
  have hsmsSent : (c.prefSms && (smsEnvOf cfg emailOk pushOk).smsOk c) = true := by
    simp [hpref, hsms c]
  constructor
  · refine ⟨(notifyContact (smsEnvOf cfg emailOk pushOk) now c).1, ?_, ?_, ?_⟩
    · rw [hnotif, List.map_map]
      exact List.mem_map_of_mem _ hc
    · exact (notifyContact_outcome _ now c).1
    · rw [(notifyContact_outcome _ now c).2.2, hpref, hsms c]
      simp
  · refine ⟨{ c with alertCount := c.alertCount + 1, lastAlertSent := some now },
      ?_, rfl, rfl, rfl⟩
    rw [hcont, List.map_map]
    rw [← notifyContact_updated (smsEnvOf cfg emailOk pushOk) now c hsmsSent]
    apply mem_foldl_saveContact
    · exact List.mem_map_of_mem _ hc
    · refine ⟨c, mem_getActiveContacts hc, ?_⟩
      rw [notifyContact_id]
    · have hmapeq : ((getActiveContacts st userId).map
          ((fun x => x.id) ∘ Prod.snd ∘ notifyContact (smsEnvOf cfg emailOk pushOk) now)) =
          (getActiveContacts st userId).map (fun c => c.id) := by
        apply List.map_congr_left
        intro x _
        simp only [Function.comp_apply]
        exact notifyContact_id _ now x
      rw [List.map_map, hmapeq]
      exact activeContactIdsNodup hnd

/-- Claim C10 witness: with the fully unconfigured SMS provider, user 1's
activation marks all three SMS outcomes `sent` and increments all three
alert counters. -/
theorem smsUnconfiguredMarksSent_witness :
    cfgOff.twilioConfigured = false ∧
    cfgOff.termiiApiKey = false ∧
    jsTruthyNum cexReq.longitude = true ∧
    jsTruthyNum cexReq.latitude = true ∧
    getActiveContacts cexStore3 1 ≠ [] ∧
    findUser cexStore3 1 = some cexUser ∧
    (cexStore3.contacts.map (fun c => c.id)).Nodup ∧
    ((∀ phone, sendSMS cfgOff phone = SmsOutcome.resolvedOk) ∧
    (activatePanicButton (smsEnvOf cfgOff (fun _ => false) (fun _ => false))
        1000 cexStore3 1 cexReq).2 =
      { status := 201, success := true, message := activatedMsg } ∧
    ∃ a ∈ (activatePanicButton (smsEnvOf cfgOff (fun _ => false) (fun _ => false))
        1000 cexStore3 1 cexReq).1.alerts,
      a.id = cexStore3.nextAlertId ∧
      ∀ c ∈ getActiveContacts cexStore3 1, c.prefSms = true →
        (∃ o ∈ a.notifiedContacts, o.contact = c.id ∧
          o.deliveryStatus = DeliveryStatus.sent) ∧
        (∃ d ∈ (activatePanicButton (smsEnvOf cfgOff (fun _ => false) (fun _ => false))
            1000 cexStore3 1 cexReq).1.contacts,
          d.id = c.id ∧ d.alertCount = c.alertCount + 1 ∧ d.lastAlertSent = some 1000)) :=
  ⟨by decide, by decide, by decide, by decide, by decide, by decide, by decide,
   smsUnconfiguredMarksSent cfgOff (fun _ => false) (fun _ => false)
     1000 cexStore3 1 cexReq cexUser
     (by decide) (by decide) (by decide) (by decide) (by decide) (by decide) (by decide)⟩

end SafeHer
